import Mathlib

/-!
Shallow embedding of the bill-management app's client-side logic, translated
from the React/TypeScript source: the zod reading-validation schema and the
`AddReadingForm` component, the `ReadingsTable` component (sorting and the
consumption colour bands), the `ProfileHeader` baseline update, the dashboard's
profile fetching and deletion, and the meter page's reading deletion.
JavaScript numbers appearing here are integers in all relevant paths, so they
are modelled by `Int`; `NaN` results are modelled by `Option`.
-/

namespace BillApp

/-- Whitespace trimmed by JavaScript `parseInt` before the number: the
ECMAScript WhiteSpace set (TAB, VT, FF, SP, NBSP, ZWNBSP and the Unicode Zs
category) together with the LineTerminator set (LF, CR, LS, PS). -/
def isJsSpace (c : Char) : Bool :=
  decide (9 ≤ c.toNat ∧ c.toNat ≤ 13) || c.toNat == 32 || c.toNat == 160 ||
    c.toNat == 5760 || decide (8192 ≤ c.toNat ∧ c.toNat ≤ 8202) ||
    c.toNat == 8232 || c.toNat == 8233 || c.toNat == 8239 || c.toNat == 8287 ||
    c.toNat == 12288 || c.toNat == 65279

/-- Value of the maximal leading run of decimal digits of `cs`; `none` when the
run is empty (which makes `parseInt` return `NaN`). -/
def jsLeadingDigitsVal (cs : List Char) : Option Nat :=
  let ds := cs.takeWhile Char.isDigit
  if ds.isEmpty then none
  else some (ds.foldl (fun a c => a * 10 + (c.toNat - 48)) 0)

/-- Hexadecimal digit test for `parseInt`'s radix-16 mode. -/
def isJsHexDigit (c : Char) : Bool :=
  c.isDigit || decide (97 ≤ c.toNat ∧ c.toNat ≤ 102) ||
    decide (65 ≤ c.toNat ∧ c.toNat ≤ 70)

/-- Numeric value of a hexadecimal digit. -/
def jsHexVal (c : Char) : Nat :=
  if c.isDigit then c.toNat - 48
  else if 97 ≤ c.toNat then c.toNat - 87
  else c.toNat - 55

/-- Value of the maximal leading run of hexadecimal digits of `cs`; `none` when
the run is empty. -/
def jsLeadingHexDigitsVal (cs : List Char) : Option Nat :=
  let ds := cs.takeWhile isJsHexDigit
  if ds.isEmpty then none
  else some (ds.foldl (fun a c => a * 16 + jsHexVal c) 0)

/-- Magnitude read by no-radix `parseInt` after sign handling: with the radix
argument absent, a leading `"0x"` or `"0X"` is stripped and the rest is read
as the maximal hexadecimal digit run; otherwise the maximal decimal digit run
is read. Everything after the run is ignored; an empty run is `NaN`. -/
def jsUnsignedIntVal (cs : List Char) : Option Nat :=
  match cs with
  | '0' :: 'x' :: rest => jsLeadingHexDigitsVal rest
  | '0' :: 'X' :: rest => jsLeadingHexDigitsVal rest
  | _ => jsLeadingDigitsVal cs

/-- JavaScript `parseInt(s)` called with no radix argument, on the character
list of `s`: skip leading whitespace, read an optional sign, then the
magnitude (hexadecimal after a `"0x"`/`"0X"` prefix, decimal otherwise);
`none` models the `NaN` result. -/
def jsParseIntChars (cs : List Char) : Option Int :=
  match cs.dropWhile isJsSpace with
  | '-' :: rest => (jsUnsignedIntVal rest).map (fun n => -(n : Int))
  | '+' :: rest => (jsUnsignedIntVal rest).map (fun n => (n : Int))
  | rest => (jsUnsignedIntVal rest).map (fun n => (n : Int))

/-- JavaScript `parseInt(s)` as the source calls it (no radix argument);
`none` models `NaN`. -/
def jsParseInt (s : String) : Option Int :=
  jsParseIntChars s.data

/-- JavaScript `x >= y` on two `parseInt` results, where `none` models `NaN`
(every comparison with `NaN` is false). -/
def jsGe (x y : Option Int) : Bool :=
  match x, y with
  | some a, some b => decide (b ≤ a)
  | _, _ => false

/-- Truth value of an optional JavaScript string: `null` and `""` are falsy. -/
def jsStrFalsy : Option String → Bool
  | none => true
  | some s => s == ""

/-- Fields the reading form schema can attach an issue to. `form` stands for a
form-level issue (zod path `[]`), which this schema never actually produces. -/
inductive Field
  | date
  | previous
  | current
  | form
  deriving DecidableEq, Repr

/-- One zod issue: the field its path points at, and its message. -/
structure FieldError where
  field : Field
  message : String
  deriving DecidableEq, Repr

/-- The raw form values handed to `formSchema` (all three are strings). -/
structure ReadingInput where
  date : String
  previous : String
  current : String
  deriving DecidableEq, Repr

/-- Test of the regular expression `^\d{4}-\d{2}-\d{2}$` from the schema's
`date` field. -/
def matchesDateRegex (s : String) : Bool :=
  match s.data with
  | [y1, y2, y3, y4, h1, m1, m2, h2, d1, d2] =>
    y1.isDigit && y2.isDigit && y3.isDigit && y4.isDigit && h1 == '-' &&
      m1.isDigit && m2.isDigit && h2 == '-' && d1.isDigit && d2.isDigit
  | _ => false

/-- The schema's refinement on `previous`/`current`:
`!isNaN(parseInt(val)) && parseInt(val) >= 0`. -/
def readingNumCheck (val : String) : Bool :=
  match jsParseInt val with
  | some v => decide (0 ≤ v)
  | none => false

/-- Issues of one numeric reading field: zod `.min(1, reqMsg)` first, then the
non-negative refinement with message `numMsg`; the refinement only runs when
the length check passed. -/
def numericFieldErrors (f : Field) (reqMsg numMsg val : String) : List FieldError :=
  if val.length < 1 then [⟨f, reqMsg⟩]
  else if readingNumCheck val then []
  else [⟨f, numMsg⟩]

/-- Issues of the `date` field. -/
def dateFieldErrors (val : String) : List FieldError :=
  if matchesDateRegex val then [] else [⟨Field.date, "Date must be YYYY-MM-DD"⟩]

/-- All field-level issues of the schema, in field order. -/
def formFieldErrors (input : ReadingInput) : List FieldError :=
  dateFieldErrors input.date ++
    numericFieldErrors Field.previous "Previous reading is required"
      "Previous reading must be a positive integer" input.previous ++
    numericFieldErrors Field.current "Current reading is required"
      "Current reading must be a positive integer" input.current

/-- `formSchema` parsing: the three field schemas run first, collecting their
issues; the object-level `.refine` comparing `parseInt(current) >=
parseInt(previous)` runs only when every field passed, and attaches its issue
to path `["current"]`. -/
def formSchemaParse (input : ReadingInput) : Except (List FieldError) ReadingInput :=
  if formFieldErrors input = [] then
    if jsGe (jsParseInt input.current) (jsParseInt input.previous) then .ok input
    else .error [⟨Field.current,
      "Current reading must be greater than or equal to previous reading"⟩]
  else .error (formFieldErrors input)

/-- Whether a schema parse succeeded. -/
def parseSucceeds (r : Except (List FieldError) ReadingInput) : Bool :=
  match r with
  | .ok _ => true
  | .error _ => false

/-- The parse result carries at least one issue attached to field `f`. -/
def errorOnField (r : Except (List FieldError) ReadingInput) (f : Field) : Prop :=
  ∃ errs, r = .error errs ∧ ∃ e ∈ errs, e.field = f

/-- Follows the spec's words, not the code: a string that "parses to a
non-negative integer", read strictly, is a plain decimal numeral (at least one
character, digits only). Declared only to compare the spec's acceptance set
with the code's `parseInt`-based one. -/
def specNonNegIntegerString (s : String) : Bool :=
  !s.data.isEmpty && s.data.all Char.isDigit

/-- Gregorian leap-year test. -/
def isLeapYear (y : Int) : Bool :=
  (y % 4 == 0 && y % 100 != 0) || y % 400 == 0

/-- Number of days of month `m` of year `y`. -/
def daysInMonth (y m : Int) : Int :=
  if m == 1 || m == 3 || m == 5 || m == 7 || m == 8 || m == 10 || m == 12 then 31
  else if m == 4 || m == 6 || m == 9 || m == 11 then 30
  else if isLeapYear y then 29
  else 28

/-- Day count from 1970-01-01 of the civil date `y-m-d` (the standard
era/year-of-era computation), matching ECMAScript's day arithmetic for the UTC
interpretation of `YYYY-MM-DD` strings. -/
def daysFromCivil (y m d : Int) : Int :=
  let y := if m ≤ 2 then y - 1 else y
  let era := (if 0 ≤ y then y else y - 399) / 400
  let yoe := y - era * 400
  let mp := (m + 9) % 12
  let doy := (153 * mp + 2) / 5 + d - 1
  let doe := yoe * 365 + yoe / 4 - yoe / 100 + doy
  era * 146097 + doe - 719468

/-- Parse of a `YYYY-MM-DD` string the way `new Date(s)` validates it: the
shape, then month and day-of-month range checks; `none` models an invalid
date. -/
def parseIsoDate (s : String) : Option (Int × Int × Int) :=
  match s.data with
  | [y1, y2, y3, y4, h1, m1, m2, h2, d1, d2] =>
    if y1.isDigit && y2.isDigit && y3.isDigit && y4.isDigit && h1 == '-' &&
        m1.isDigit && m2.isDigit && h2 == '-' && d1.isDigit && d2.isDigit then
      let y : Int := ((y1.toNat - 48) * 1000 + (y2.toNat - 48) * 100 +
        (y3.toNat - 48) * 10 + (y4.toNat - 48) : Nat)
      let m : Int := ((m1.toNat - 48) * 10 + (m2.toNat - 48) : Nat)
      let d : Int := ((d1.toNat - 48) * 10 + (d2.toNat - 48) : Nat)
      if 1 ≤ m ∧ m ≤ 12 ∧ 1 ≤ d ∧ d ≤ daysInMonth y m then some (y, m, d)
      else none
    else none
  | _ => none

/-- Model of `new Date(s).getTime()` for a `YYYY-MM-DD` string: UTC midnight in
milliseconds since the epoch; `none` models an invalid date (`NaN`). -/
def jsDateGetTime (s : String) : Option Int :=
  (parseIsoDate s).map (fun x => daysFromCivil x.1 x.2.1 x.2.2 * 86400000)

/-- Total variant of `jsDateGetTime` used inside the sort comparator; it agrees
with `new Date(s).getTime()` whenever the date string is valid. -/
def jsGetTimeD (s : String) : Int :=
  (jsDateGetTime s).getD 0

/-- A reading as returned by the backend and displayed by the table. -/
structure Reading where
  id : Int
  profile_id : Int
  date : String
  previous : Int
  current : Int
  consumption : Int
  deriving DecidableEq, Repr

/-- A meter profile. The dashboard's interface omits `initial_reading`; that
field is simply unused in the dashboard operations below. -/
structure Profile where
  id : Int
  user_id : String
  tenant_name : String
  meter_number : String
  last_consumption : Option Int
  last_reading_date : Option String
  initial_reading : Option Int
  deriving DecidableEq, Repr

/-- The table's sort comparator
`(a, b) => new Date(b.date).getTime() - new Date(a.date).getTime()`. -/
def readingDateCmp (a b : Reading) : Int :=
  jsGetTimeD b.date - jsGetTimeD a.date

/-- The comparator keeps `a` no later than `b` (comparator result `<= 0`). -/
def cmpKeeps (a b : Reading) : Prop :=
  readingDateCmp a b ≤ 0

instance : DecidableRel cmpKeeps :=
  fun a b => inferInstanceAs (Decidable (readingDateCmp a b ≤ 0))

instance : IsTotal Reading cmpKeeps :=
  ⟨fun a b => by unfold cmpKeeps readingDateCmp; omega⟩

instance : IsTrans Reading cmpKeeps :=
  ⟨fun a b c hab hbc => by unfold cmpKeeps readingDateCmp at hab hbc ⊢; omega⟩

/-- Model of `readings.sort(cmp)`: `Array.prototype.sort` is stable and, for
this consistent comparator, agrees with stable insertion sort by "comparator
result `<= 0`". The sort happens in place on the caller's array. -/
def sortReadings (rs : List Reading) : List Reading :=
  rs.insertionSort cmpKeeps

/-- The rows of the readings table in render order: one row per element of the
sorted array. -/
def readingsTableRows (rs : List Reading) : List Reading :=
  sortReadings rs

/-- Contents of the caller's `readings` array after `ReadingsTable` has
rendered: `Array.prototype.sort` sorts the array in place, so the caller is
left with the sorted array. -/
def readingsArrayAfterRender (rs : List Reading) : List Reading :=
  sortReadings rs

/-- The colour classes of the consumption cell. -/
inductive ConsumptionColor
  | red
  | orange
  | yellow
  | green
  deriving DecidableEq, Repr

/-- The consumption cell's class chain from `ReadingsTable`:
`consumption >= 200 ? red : consumption >= 150 ? orange :
consumption >= 100 ? yellow : green`. -/
def consumptionClass (c : Int) : ConsumptionColor :=
  if 200 ≤ c then .red
  else if 150 ≤ c then .orange
  else if 100 ≤ c then .yellow
  else .green

/-- An HTTP response as the handlers see it: `ok`, `status`, and the optional
`detail` string of the parsed JSON error body. -/
structure HttpResponse where
  ok : Bool
  status : Nat
  detail : Option String
  deriving DecidableEq, Repr

/-- JavaScript `errorData.detail || fallback`; `null` and `""` are falsy. -/
def jsDetailOr (detail : Option String) (fallback : String) : String :=
  match detail with
  | some d => if d = "" then fallback else d
  | none => fallback

/-- The dashboard's component state touched by its handlers. -/
structure DashboardState where
  profiles : List Profile
  isLoading : Bool
  error : Option String
  deriving DecidableEq, Repr

/-- The part of `handleDeleteProfile` that runs before the DELETE request is
sent: `setIsLoading(true); setError(null)`. The profile list is untouched. -/
def handleDeleteProfileStart (st : DashboardState) : DashboardState :=
  { st with isLoading := true, error := none }

/-- Model of the dashboard's `handleDeleteProfile` once the response is in:
after the start phase, a missing token throws (caught by `setError`); a non-ok
response throws `errorData.detail ||` a status-bearing fallback; only an ok
response filters the deleted id out of the local list. The `finally` clause
clears the loading flag on every path. -/
def handleDeleteProfile (st : DashboardState) (profileId : Int)
    (token : Option String) (resp : HttpResponse) : DashboardState :=
  let st := handleDeleteProfileStart st
  if jsStrFalsy token then
    { st with error := some "Authentication token not found", isLoading := false }
  else if resp.ok then
    { st with
      profiles := st.profiles.filter (fun p => p.id != profileId),
      error := none, isLoading := false }
  else
    { st with
      error := some (jsDetailOr resp.detail
        ("Failed to delete profile: " ++ toString resp.status)),
      isLoading := false }

/-- The meter page's component state touched by `handleDeleteReading`. -/
structure MeterState where
  readings : List Reading
  error : Option String
  deriving DecidableEq, Repr

/-- Model of the meter page's `handleDeleteReading`: a signed-out user or
missing user id or missing token only sets an error; a non-ok DELETE response
sets an error and leaves the list alone; an ok response filters the reading
out of the displayed list and clears the error. -/
def handleDeleteReading (st : MeterState) (isSignedIn : Bool)
    (userId : Option String) (readingId : Int) (token : Option String)
    (resp : HttpResponse) : MeterState :=
  if !isSignedIn || jsStrFalsy userId then
    { st with error := some "Please sign in to delete reading" }
  else if jsStrFalsy token then
    { st with error := some "Authentication token not found" }
  else if resp.ok then
    { st with
      readings := st.readings.filter (fun r => r.id != readingId),
      error := none }
  else
    { st with
      error := some (jsDetailOr resp.detail
        ("Failed to delete reading: " ++ toString resp.status)) }

/-- A JSON response body as far as `Array.isArray` can tell it apart; an array
body carries the profile list the dashboard trusts the backend to send. -/
inductive JsonBody
  | arrayOf (profiles : List Profile)
  | obj
  | str (s : String)
  | num (n : Int)
  | null
  deriving DecidableEq, Repr

/-- JavaScript `Array.isArray`. -/
def JsonBody.isArray : JsonBody → Bool
  | .arrayOf _ => true
  | _ => false

/-- The message thrown by the dashboard's `fetchProfiles` for a non-ok
response: 401 gets the session-expired text, everything else the generic one. -/
def fetchProfilesFailMsg (status : Nat) : String :=
  if status == 401 then "Session expired, please sign in again"
  else "Failed to fetch profiles"

/-- Model of the dashboard's `fetchProfiles` once the auth state has resolved:
a signed-out user gets an error; a missing token throws; a non-ok response
throws the status-dependent message; otherwise `profiles` is set from the body
when the body is an array and to `[]` otherwise, and the error is cleared. The
`finally` clause clears the loading flag on every path. -/
def fetchProfiles (st : DashboardState) (isSignedIn : Bool)
    (token : Option String) (resp : HttpResponse) (body : JsonBody) :
    DashboardState :=
  if !isSignedIn then
    { st with
      error := some "Please sign in to view your dashboard",
      isLoading := false }
  else if jsStrFalsy token then
    { st with error := some "Authentication token not found", isLoading := false }
  else if resp.ok then
    { st with
      profiles := match body with | .arrayOf ps => ps | _ => [],
      error := none, isLoading := false }
  else
    { st with
      error := some (fetchProfilesFailMsg resp.status),
      isLoading := false }

/-- Model of `ProfileHeader.handleSaveInitialReading`: the result is the
integer handed to `onUpdateInitialReading`, with `none` for the silent no-op
(an empty input, a `NaN` parse, or a negative parse returns without submitting;
the component has no error channel at all). -/
def handleSaveInitialReading (input : String) : Option Int :=
  if input = "" then none
  else
    match jsParseInt input with
    | none => none
    | some v => if v < 0 then none else some v

/-- Example reading dated 2025-01-01 (spec §8's sorting example). -/
def rJan : Reading :=
  ⟨1, 1, "2025-01-01", 100, 150, 50⟩

/-- Example reading dated 2025-02-01. -/
def rFeb : Reading :=
  ⟨2, 1, "2025-02-01", 150, 220, 70⟩

/-- Example reading dated 2025-03-01. -/
def rMar : Reading :=
  ⟨3, 1, "2025-03-01", 220, 300, 80⟩

/-- Example profile used in witnesses. -/
def pEx : Profile :=
  ⟨1, "user_1", "tenant", "MTR-1", none, none, none⟩

theorem jsParseInt_data_ne_nil {s : String} {v : Int} (h : jsParseInt s = some v) :
    s.data ≠ [] := by
  intro hnil
  rw [jsParseInt, hnil] at h
  simp [jsParseIntChars, jsUnsignedIntVal, jsLeadingDigitsVal] at h

theorem not_length_lt_one_of_jsParseInt {s : String} {v : Int}
    (h : jsParseInt s = some v) : ¬ s.length < 1 := by
  have hne := jsParseInt_data_ne_nil h
  have hpos : 0 < s.data.length := List.length_pos.mpr hne
  simp only [String.length]
  omega

theorem numericFieldErrors_eq_nil (f : Field) (rm nm val : String) {v : Int}
    (hv : jsParseInt val = some v) (hnn : 0 ≤ v) :
    numericFieldErrors f rm nm val = [] := by
  have hlen := not_length_lt_one_of_jsParseInt hv
  simp [numericFieldErrors, hlen, readingNumCheck, hv, hnn]

theorem numericFieldErrors_cases (f : Field) (rm nm val : String) :
    numericFieldErrors f rm nm val = [] ∨
      numericFieldErrors f rm nm val = [⟨f, rm⟩] ∨
      numericFieldErrors f rm nm val = [⟨f, nm⟩] := by
  unfold numericFieldErrors
  split
  · exact Or.inr (Or.inl rfl)
  · split
    · exact Or.inl rfl
    · exact Or.inr (Or.inr rfl)

theorem numericFieldErrors_field (f : Field) (rm nm val : String) :
    ∀ e ∈ numericFieldErrors f rm nm val, e.field = f := by
  intro e he
  rcases numericFieldErrors_cases f rm nm val with h | h | h <;>
    rw [h] at he <;> simp_all

theorem numericFieldErrors_ne_nil (f : Field) (rm nm val : String)
    (h : val = "" ∨ jsParseInt val = none ∨ ∃ v, jsParseInt val = some v ∧ v < 0) :
    numericFieldErrors f rm nm val ≠ [] := by
  unfold numericFieldErrors
  split
  · simp
  · rename_i hlen
    have hval : val ≠ "" := by
      intro hv
      apply hlen
      subst hv
      decide
    have hcheck : readingNumCheck val = false := by
      rcases h with h | h | ⟨v, hv, hneg⟩
      · exact absurd h hval
      · simp [readingNumCheck, h]
      · simp [readingNumCheck, hv]
        omega
    rw [if_neg (by simp [hcheck])]
    simp

theorem dateFieldErrors_eq_nil {val : String} (h : matchesDateRegex val = true) :
    dateFieldErrors val = [] := by
  simp [dateFieldErrors, h]

theorem dateFieldErrors_field (val : String) :
    ∀ e ∈ dateFieldErrors val, e.field = Field.date := by
  intro e he
  unfold dateFieldErrors at he
  split at he <;> simp_all

theorem errorOnField_previous_of_bad (d p c : String)
    (h : p = "" ∨ jsParseInt p = none ∨ ∃ v, jsParseInt p = some v ∧ v < 0) :
    errorOnField (formSchemaParse ⟨d, p, c⟩) Field.previous := by
  have hne := numericFieldErrors_ne_nil Field.previous "Previous reading is required"
    "Previous reading must be a positive integer" p h
  have hmem : ∃ e ∈ formFieldErrors ⟨d, p, c⟩, e.field = Field.previous := by
    rcases numericFieldErrors_cases Field.previous "Previous reading is required"
        "Previous reading must be a positive integer" p with h0 | h1 | h1
    · exact absurd h0 hne
    · exact ⟨⟨Field.previous, "Previous reading is required"⟩,
        by simp [formFieldErrors, h1], rfl⟩
    · exact ⟨⟨Field.previous, "Previous reading must be a positive integer"⟩,
        by simp [formFieldErrors, h1], rfl⟩
  have hnil : formFieldErrors ⟨d, p, c⟩ ≠ [] := by
    obtain ⟨e, hm, _⟩ := hmem
    exact List.ne_nil_of_mem hm
  refine ⟨formFieldErrors ⟨d, p, c⟩, ?_, hmem⟩
  rw [formSchemaParse, if_neg hnil]

theorem errorOnField_current_of_bad (d p c : String)
    (h : c = "" ∨ jsParseInt c = none ∨ ∃ v, jsParseInt c = some v ∧ v < 0) :
    errorOnField (formSchemaParse ⟨d, p, c⟩) Field.current := by
  have hne := numericFieldErrors_ne_nil Field.current "Current reading is required"
    "Current reading must be a positive integer" c h
  have hmem : ∃ e ∈ formFieldErrors ⟨d, p, c⟩, e.field = Field.current := by
    rcases numericFieldErrors_cases Field.current "Current reading is required"
        "Current reading must be a positive integer" c with h0 | h1 | h1
    · exact absurd h0 hne
    · exact ⟨⟨Field.current, "Current reading is required"⟩,
        by simp [formFieldErrors, h1], rfl⟩
    · exact ⟨⟨Field.current, "Current reading must be a positive integer"⟩,
        by simp [formFieldErrors, h1], rfl⟩
  have hnil : formFieldErrors ⟨d, p, c⟩ ≠ [] := by
    obtain ⟨e, hm, _⟩ := hmem
    exact List.ne_nil_of_mem hm
  refine ⟨formFieldErrors ⟨d, p, c⟩, ?_, hmem⟩
  rw [formSchemaParse, if_neg hnil]

theorem not_errorOnField_previous_of_good (d p c : String) {v : Int}
    (hv : jsParseInt p = some v) (hnn : 0 ≤ v) :
    ¬ errorOnField (formSchemaParse ⟨d, p, c⟩) Field.previous := by
  rintro ⟨errs, herr, e, hmem, hf⟩
  have hprev := numericFieldErrors_eq_nil Field.previous "Previous reading is required"
    "Previous reading must be a positive integer" p hv hnn
  by_cases hemp : formFieldErrors ⟨d, p, c⟩ = []
  · rw [formSchemaParse, if_pos hemp] at herr
    by_cases hge : jsGe (jsParseInt c) (jsParseInt p) = true
    · rw [if_pos hge] at herr
      exact Except.noConfusion herr
    · rw [if_neg hge] at herr
      injection herr with herr
      subst herr
      simp at hmem
      subst hmem
      exact Field.noConfusion hf
  · rw [formSchemaParse, if_neg hemp] at herr
    injection herr with herr
    subst herr
    unfold formFieldErrors at hmem
    rw [hprev] at hmem
    simp at hmem
    rcases hmem with hm | hm
    · have := dateFieldErrors_field d e hm
      rw [hf] at this
      exact Field.noConfusion this
    · have := numericFieldErrors_field Field.current "Current reading is required"
        "Current reading must be a positive integer" c e hm
      rw [hf] at this
      exact Field.noConfusion this

theorem not_errorOnField_current_of_good (d p c : String) {v : Int}
    (hv : jsParseInt c = some v) (hnn : 0 ≤ v)
    (hge : jsGe (jsParseInt c) (jsParseInt p) = true) :
    ¬ errorOnField (formSchemaParse ⟨d, p, c⟩) Field.current := by
  rintro ⟨errs, herr, e, hmem, hf⟩
  have hcurr := numericFieldErrors_eq_nil Field.current "Current reading is required"
    "Current reading must be a positive integer" c hv hnn
  by_cases hemp : formFieldErrors ⟨d, p, c⟩ = []
  · rw [formSchemaParse, if_pos hemp, if_pos hge] at herr
    exact Except.noConfusion herr
  · rw [formSchemaParse, if_neg hemp] at herr
    injection herr with herr
    subst herr
    unfold formFieldErrors at hmem
    rw [hcurr] at hmem
    simp at hmem
    rcases hmem with hm | hm
    · have := dateFieldErrors_field d e hm
      rw [hf] at this
      exact Field.noConfusion this
    · have := numericFieldErrors_field Field.previous "Previous reading is required"
        "Previous reading must be a positive integer" p e hm
      rw [hf] at this
      exact Field.noConfusion this

/-- C1: for a date string matching the schema's pattern and a pair of input
strings whose `parseInt` values are non-negative integers, reading validation
succeeds exactly when `current >= previous`; when `current < previous` it
fails and the single resulting issue is attached to the `current` field
(path `["current"]`), not reported as a form-level issue. -/
theorem c1_cross_field_rule (d p c : String) (vp vc : Int)
    (hd : matchesDateRegex d = true)
    (hp : jsParseInt p = some vp) (hc : jsParseInt c = some vc)
    (hvp : 0 ≤ vp) (hvc : 0 ≤ vc) :
    (parseSucceeds (formSchemaParse ⟨d, p, c⟩) = true ↔ vp ≤ vc) ∧
      (vc < vp → formSchemaParse ⟨d, p, c⟩ =
        .error [⟨Field.current,
          "Current reading must be greater than or equal to previous reading"⟩]) := by
  have herrs : formFieldErrors ⟨d, p, c⟩ = [] := by
    simp [formFieldErrors, dateFieldErrors_eq_nil hd,
      numericFieldErrors_eq_nil Field.previous "Previous reading is required"
        "Previous reading must be a positive integer" p hp hvp,
      numericFieldErrors_eq_nil Field.current "Current reading is required"
        "Current reading must be a positive integer" c hc hvc]
  have hmain : formSchemaParse ⟨d, p, c⟩ =
      if vp ≤ vc then .ok ⟨d, p, c⟩
      else .error [⟨Field.current,
        "Current reading must be greater than or equal to previous reading"⟩] := by
    rw [formSchemaParse, if_pos herrs]
    simp [jsGe, hp, hc]
  constructor
  · rw [hmain]
    by_cases hle : vp ≤ vc <;> simp [hle, parseSucceeds]
  · intro hlt
    rw [hmain, if_neg (by omega)]

/-- Witness for C1 at date `"2025-01-01"`, previous `"100"`, current `"150"`. -/
theorem c1_cross_field_rule_witness :
    parseSucceeds (formSchemaParse ⟨"2025-01-01", "100", "150"⟩) = true :=
  ((c1_cross_field_rule "2025-01-01" "100" "150" 100 150 (by decide) (by decide)
    (by decide) (by decide) (by decide)).1).mpr (by decide)

/-- C2 counterexample: `"3.5"` is not a non-negative integer numeral, yet the
schema accepts the reading `("2025-01-01", "3.5", "5")`, because the field
check uses `parseInt`, which reads the leading integer part `3` and ignores
the rest. -/
theorem c2_counterexample :
    specNonNegIntegerString "3.5" = false ∧
      parseSucceeds (formSchemaParse ⟨"2025-01-01", "3.5", "5"⟩) = true := by
  constructor
  · decide
  · decide

/-- C2 amended: a `previous`/`current` field string is rejected, with the issue
attached to that field, exactly when it is empty or JavaScript `parseInt`
yields `NaN` or a negative value; any string whose leading integer part is
non-negative is accepted for that field (for `current`, absent a cross-field
violation), even when the string is not an integer numeral. -/
theorem c2_amended_numeric_field_rule (d p c : String) :
    ((p = "" ∨ jsParseInt p = none ∨ ∃ v, jsParseInt p = some v ∧ v < 0) →
      errorOnField (formSchemaParse ⟨d, p, c⟩) Field.previous) ∧
    ((∃ v, jsParseInt p = some v ∧ 0 ≤ v) →
      ¬ errorOnField (formSchemaParse ⟨d, p, c⟩) Field.previous) ∧
    ((c = "" ∨ jsParseInt c = none ∨ ∃ v, jsParseInt c = some v ∧ v < 0) →
      errorOnField (formSchemaParse ⟨d, p, c⟩) Field.current) ∧
    ((∃ v, jsParseInt c = some v ∧ 0 ≤ v) →
      jsGe (jsParseInt c) (jsParseInt p) = true →
      ¬ errorOnField (formSchemaParse ⟨d, p, c⟩) Field.current) := by
  refine ⟨errorOnField_previous_of_bad d p c, ?_,
    errorOnField_current_of_bad d p c, ?_⟩
  · rintro ⟨v, hv, hnn⟩
    exact not_errorOnField_previous_of_good d p c hv hnn
  · rintro ⟨v, hv, hnn⟩ hge
    exact not_errorOnField_current_of_good d p c hv hnn hge

/-- Witness for the amended C2: the negative string `"-3"` in `previous` is
rejected with the issue on the `previous` field. -/
theorem c2_amended_numeric_field_rule_witness :
    errorOnField (formSchemaParse ⟨"2025-01-01", "-3", "5"⟩) Field.previous :=
  (c2_amended_numeric_field_rule "2025-01-01" "-3" "5").1
    (Or.inr (Or.inr ⟨-3, by decide, by decide⟩))

/-- C3: for a list of readings with valid dates, the table renders a
permutation of the list ordered by the `Date` value of the date string,
descending; in particular readings dated 2025-01-01, 2025-03-01, 2025-02-01
render in the order 03-01, 02-01, 01-01. -/
theorem c3_rows_sorted_date_desc (rs : List Reading)
    (_hvalid : ∀ r ∈ rs, (jsDateGetTime r.date).isSome = true) :
    (readingsTableRows rs).Perm rs ∧
      (readingsTableRows rs).Pairwise
        (fun a b => jsGetTimeD b.date ≤ jsGetTimeD a.date) ∧
      readingsTableRows [rJan, rMar, rFeb] = [rMar, rFeb, rJan] := by
  refine ⟨List.perm_insertionSort cmpKeeps rs, ?_, by decide⟩
  have h := List.sorted_insertionSort cmpKeeps rs
  exact List.Pairwise.imp
    (fun hab => by unfold cmpKeeps readingDateCmp at hab; omega) h

/-- Witness for C3 at the three example readings. -/
theorem c3_rows_sorted_date_desc_witness :
    (readingsTableRows [rJan, rMar, rFeb]).Perm [rJan, rMar, rFeb] ∧
      (readingsTableRows [rJan, rMar, rFeb]).Pairwise
        (fun a b => jsGetTimeD b.date ≤ jsGetTimeD a.date) := by
  have h := c3_rows_sorted_date_desc [rJan, rMar, rFeb] (by decide)
  exact ⟨h.1, h.2.1⟩

/-- C4: a consumption of exactly 199 gets the `[150, 200)` band's colour
(orange), not the colour of the band that begins at 200 (red); a consumption
of exactly 200 gets that top band's colour. -/
theorem c4_band_boundary_at_200 :
    consumptionClass 199 = ConsumptionColor.orange ∧
      consumptionClass 200 = ConsumptionColor.red ∧
      consumptionClass 199 ≠ consumptionClass 200 := by
  decide

/-- C5: every consumption value falls in exactly one of the four colour bands,
and the bands are the intervals `[200, ∞)`, `[150, 200)`, `[100, 150)` and
`(-∞, 100)`. -/
theorem c5_four_severity_bands (v : Int) :
    (consumptionClass v = ConsumptionColor.red ↔ 200 ≤ v) ∧
      (consumptionClass v = ConsumptionColor.orange ↔ 150 ≤ v ∧ v < 200) ∧
      (consumptionClass v = ConsumptionColor.yellow ↔ 100 ≤ v ∧ v < 150) ∧
      (consumptionClass v = ConsumptionColor.green ↔ v < 100) := by
  unfold consumptionClass
  split_ifs with h1 h2 h3 <;>
    refine ⟨?_, ?_, ?_, ?_⟩ <;> simp <;> omega

/-- C6 counterexample: rendering the table is not order-preserving on the
caller's array: for the list `[rJan, rMar]` the caller's array contents after
rendering differ from the original order, because `Array.prototype.sort`
sorts the props array in place. -/
theorem c6_counterexample :
    readingsArrayAfterRender [rJan, rMar] ≠ [rJan, rMar] := by
  decide

/-- C6 amended: rendering is a function of the input list and delete handler
only, and it preserves the caller's readings as a multiset; but it reorders
the caller's array in place, leaving it equal to the date-descending sorted
list (which is also exactly the rendered row order). -/
theorem c6_amended_render_sorts_in_place (rs : List Reading) :
    (readingsArrayAfterRender rs).Perm rs ∧
      readingsTableRows rs = readingsArrayAfterRender rs ∧
      readingsArrayAfterRender rs = sortReadings rs :=
  ⟨List.perm_insertionSort cmpKeeps rs, rfl, rfl⟩

/-- C7: for both delete flows, nothing is removed before the response is
examined (the pre-fetch phase leaves the profile list untouched); an ok DELETE
response removes exactly the entries with the given id from the local list
(keeping everything else in order); a failed response leaves the list
unchanged and sets an error message. -/
theorem c7_remove_only_after_success (dst : DashboardState) (mst : MeterState)
    (pid rid : Int) (tok uid : String) (resp : HttpResponse)
    (htok : tok ≠ "") (huid : uid ≠ "") :
    (handleDeleteProfileStart dst).profiles = dst.profiles ∧
      (resp.ok = true →
        (handleDeleteProfile dst pid (some tok) resp).profiles =
          dst.profiles.filter (fun p => p.id != pid)) ∧
      (resp.ok = false →
        (handleDeleteProfile dst pid (some tok) resp).profiles = dst.profiles ∧
          ((handleDeleteProfile dst pid (some tok) resp).error).isSome = true) ∧
      (resp.ok = true →
        (handleDeleteReading mst true (some uid) rid (some tok) resp).readings =
          mst.readings.filter (fun r => r.id != rid)) ∧
      (resp.ok = false →
        (handleDeleteReading mst true (some uid) rid (some tok) resp).readings =
            mst.readings ∧
          ((handleDeleteReading mst true (some uid) rid (some tok) resp).error).isSome =
            true) := by
  have htok2 : jsStrFalsy (some tok) = false := by
    simp [jsStrFalsy, htok]
  have huid2 : jsStrFalsy (some uid) = false := by
    simp [jsStrFalsy, huid]
  refine ⟨rfl, ?_, ?_, ?_, ?_⟩ <;> intro hok <;>
    simp [handleDeleteProfile, handleDeleteReading, handleDeleteProfileStart,
      htok2, huid2, hok]

/-- Witness for C7: an ok response removes profile 1 from the dashboard list,
and a failed response leaves the meter page's reading list unchanged. -/
theorem c7_remove_only_after_success_witness :
    (handleDeleteProfile ⟨[pEx], false, none⟩ 1 (some "tok")
        ⟨true, 200, none⟩).profiles = [pEx].filter (fun p => p.id != 1) ∧
      (handleDeleteReading ⟨[rJan], none⟩ true (some "user_1") 5 (some "tok")
        ⟨false, 500, none⟩).readings = [rJan] :=
  ⟨(c7_remove_only_after_success ⟨[pEx], false, none⟩ ⟨[rJan], none⟩ 1 5 "tok"
      "user_1" ⟨true, 200, none⟩ (by decide) (by decide)).2.1 rfl,
    ((c7_remove_only_after_success ⟨[pEx], false, none⟩ ⟨[rJan], none⟩ 1 5 "tok"
      "user_1" ⟨false, 500, none⟩ (by decide) (by decide)).2.2.2.2 rfl).1⟩

/-- C8: a failed profile fetch sets the status-dependent message; status 401
gets the session-expired text, any other status the generic fetch-failure
text, and the two texts differ. -/
theorem c8_fetch_401_distinct_message (st : DashboardState) (tok : String)
    (resp : HttpResponse) (body : JsonBody) (htok : tok ≠ "")
    (hfail : resp.ok = false) :
    (fetchProfiles st true (some tok) resp body).error =
        some (fetchProfilesFailMsg resp.status) ∧
      (resp.status = 401 →
        fetchProfilesFailMsg resp.status = "Session expired, please sign in again") ∧
      (resp.status ≠ 401 →
        fetchProfilesFailMsg resp.status = "Failed to fetch profiles") ∧
      "Session expired, please sign in again" ≠ "Failed to fetch profiles" := by
  have htok2 : jsStrFalsy (some tok) = false := by
    simp [jsStrFalsy, htok]
  refine ⟨?_, ?_, ?_, by decide⟩
  · simp [fetchProfiles, htok2, hfail]
  · intro h
    simp [fetchProfilesFailMsg, h]
  · intro h
    simp [fetchProfilesFailMsg, h]

/-- Witness for C8 at a 401 response. -/
theorem c8_fetch_401_distinct_message_witness :
    (fetchProfiles ⟨[], true, none⟩ true (some "tok") ⟨false, 401, none⟩
        JsonBody.null).error = some (fetchProfilesFailMsg 401) :=
  (c8_fetch_401_distinct_message ⟨[], true, none⟩ "tok" ⟨false, 401, none⟩
    JsonBody.null (by decide) rfl).1

/-- C9: the baseline update is a silent local no-op exactly when the candidate
string is empty, `parseInt` yields `NaN`, or `parseInt` yields a negative
value; for every other string the `parseInt` value is submitted. -/
theorem c9_baseline_silent_reject (s : String) :
    (handleSaveInitialReading s = none ↔
      (s = "" ∨ jsParseInt s = none ∨ ∃ v, jsParseInt s = some v ∧ v < 0)) ∧
      (∀ v : Int, s ≠ "" → jsParseInt s = some v → 0 ≤ v →
        handleSaveInitialReading s = some v) := by
  constructor
  · unfold handleSaveInitialReading
    split_ifs with hs
    · simp [hs]
    · cases hv : jsParseInt s with
      | none => simp [hv]
      | some v =>
        change (if v < 0 then (none : Option Int) else some v) = none ↔ _
        by_cases hneg : v < 0
        · rw [if_pos hneg]
          simp only [eq_self_iff_true, true_iff]
          exact Or.inr (Or.inr ⟨v, rfl, hneg⟩)
        · rw [if_neg hneg]
          simp [hs, hv]
          omega
  · intro v hs hv hnn
    unfold handleSaveInitialReading
    rw [if_neg hs, hv]
    exact if_neg (by omega)

/-- Witness for C9: `"42"` submits 42. -/
theorem c9_baseline_silent_reject_witness :
    handleSaveInitialReading "42" = some 42 :=
  (c9_baseline_silent_reject "42").2 42 (by decide) (by decide) (by decide)

/-- C10: a successful profile fetch whose JSON body is not an array sets the
profiles state to the empty list (and no error), so the displayed list is a
list of profiles in every case. -/
theorem c10_nonarray_body_yields_empty_list (st : DashboardState) (tok : String)
    (resp : HttpResponse) (body : JsonBody) (htok : tok ≠ "")
    (hok : resp.ok = true) (hna : body.isArray = false) :
    (fetchProfiles st true (some tok) resp body).profiles = [] ∧
      (fetchProfiles st true (some tok) resp body).error = none := by
  have htok2 : jsStrFalsy (some tok) = false := by
    simp [jsStrFalsy, htok]
  cases body <;> simp_all [fetchProfiles, JsonBody.isArray]

/-- Witness for C10 at a null body. -/
theorem c10_nonarray_body_yields_empty_list_witness :
    (fetchProfiles ⟨[pEx], true, none⟩ true (some "tok") ⟨true, 200, none⟩
        JsonBody.null).profiles = [] :=
  (c10_nonarray_body_yields_empty_list ⟨[pEx], true, none⟩ "tok" ⟨true, 200, none⟩
    JsonBody.null (by decide) rfl rfl).1

end BillApp
